import Mathlib

/-!
Verification of the `@ibnlanre/clone` deep-duplication engine (`src/index.ts`).

The development is a shallow embedding of the cloning module: JavaScript
values are modelled as primitives plus heap references, the heap is an
explicit store of objects, and the engine's `WeakMap`-based reference
tracker is an explicit association list threaded through the recursion.
Every definition below is translated from the source module; fuel makes the
recursive `clone` total, and running out of fuel (or a handler applied to a
value lacking the internal state its constructor call needs, which in the
host language would throw) yields `none`.
-/

/-- Primitive (non-reference) runtime values: `null`, `undefined`, booleans,
numbers, strings, symbols and bigints. Numbers are modelled as integers;
none of the verified claims depends on float behaviour. Symbols carry an
identity. -/
inductive Prim where
  | null
  | undef
  | bool (b : Bool)
  | num (n : Int)
  | str (s : String)
  | sym (id : Nat)
  | bigint (n : Int)
deriving DecidableEq, Repr

/-- A runtime value: a primitive, or a reference to a heap object. Reference
identity is address equality, matching the engine's use of a `WeakMap` keyed
by object identity. -/
inductive Value where
  | prim (p : Prim)
  | ref (a : Nat)
deriving DecidableEq, Repr

/-- An own-property key: a string name or a symbol. `getOwnPropertyNames`
enumerates the string keys, `getOwnPropertySymbols` the symbol keys. -/
inductive PKey where
  | str (s : String)
  | sym (id : Nat)
deriving DecidableEq, Repr

/-- A property descriptor, as returned by `Object.getOwnPropertyDescriptor`:
either a data descriptor (value + enumerable/configurable/writable) or an
accessor descriptor. Accessor functions are carried as identities
(`Option Nat`), which is what lets "the accessor functions are shared
verbatim" be stated as identity preservation. -/
inductive Descriptor where
  | data (value : Value) (enumerable configurable writable : Bool)
  | accessor (getId setId : Option Nat) (enumerable configurable : Bool)
deriving DecidableEq, Repr

/-- A constructor identity, i.e. the possible results of reading
`value.constructor`. These are the keys of the handler registry. -/
inductive Ctor where
  | object
  | array
  | date
  | regexp
  | error
  | typeError
  | rangeError
  | promise
  | function
  | asyncFunction
  | generatorFunction
  | asyncGeneratorFunction
  | map
  | set
  | arrayBuffer
  | dataView
  | weakMap
  | weakSet
  | weakRef
  | url
  | urlSearchParams
  | formData
  | blob
  | file
  | int8Array
  | uint8Array
  | uint8ClampedArray
  | int16Array
  | uint16Array
  | int32Array
  | uint32Array
  | float32Array
  | float64Array
  | bigInt64Array
  | bigUint64Array
  | custom (id : Nat)
deriving DecidableEq, Repr

/-- The result of `Object.getPrototypeOf`: either `null` or the `prototype`
object of some constructor (`Proto.protoOf c` stands for `c.prototype`). -/
inductive Proto where
  | nullProto
  | protoOf (c : Ctor)
deriving DecidableEq, Repr

/-- The callable behaviour of a function object. `body code` is an original
function body (closure included), identified by `code`; `wrapper inner` is
the delegating wrapper that `createInstance` (and its async/generator
variants) build around `inner`: invoked as a plain call it runs
`inner.apply(this, args)`. -/
inductive FnBehavior where
  | body (code : Nat)
  | wrapper (inner : FnBehavior)
deriving DecidableEq, Repr

/-- The type-specific internal state of a heap object (the host engine's
internal slots). `plain` is an ordinary object with no extra slots; note
that `Object.create` never copies internal slots, which is why a value
duplicated through the generic object handler has `plain` internals no
matter what the source carried. -/
inductive Internal where
  | plain
  | arrayData (elems : List (Option Value))
  | date (time : Int)
  | regexp (source flags : String)
  | buffer (bytes : List Int)
  | typedArray (bufAddr byteOffset length : Nat)
  | dataView (bufAddr byteOffset byteLength : Nat)
  | mapData (entries : List (Value × Value))
  | setData (items : List Value)
  | weak
  | promiseState
  | func (behavior : FnBehavior) (protoProp : Option Nat)
  | url (href : String)
  | urlSearchParams (entries : List (String × String))
  | formData (entries : List (String × String))
  | blob (content ty : String)
  | file (content name ty : String) (lastModified : Int)
deriving DecidableEq, Repr

/-- A heap object: the result of reading its `constructor` property (own or
inherited; `none` models e.g. `Object.create(null)`), its prototype, its
internal slots, and its own properties in insertion order. -/
structure ObjData where
  ctor : Option Ctor
  proto : Proto
  internal : Internal
  props : List (PKey × Descriptor)
deriving DecidableEq, Repr

/-- The store threaded through a duplication call: the heap (address =
list index, allocation appends) and the `visited` reference tracker, an
association list from source address to duplicate address (`WeakMap.set`
prepends, `WeakMap.get` takes the first hit). -/
structure Store where
  heap : List ObjData
  visited : List (Nat × Nat)
deriving DecidableEq, Repr

def Store.getObj (st : Store) (a : Nat) : Option ObjData :=
  st.heap.get? a

def Store.setObj (st : Store) (a : Nat) (o : ObjData) : Store :=
  { st with heap := st.heap.set a o }

def Store.updateObj (st : Store) (a : Nat) (f : ObjData → ObjData) : Store :=
  match st.getObj a with
  | some o => st.setObj a (f o)
  | none => st

/-- Allocate a fresh object; its address is the previous heap length. -/
def Store.alloc (st : Store) (o : ObjData) : Store × Nat :=
  ({ st with heap := st.heap ++ [o] }, st.heap.length)

/-- `visited.get(ref)`: first entry for the address. -/
def Store.lookupVisited (st : Store) (a : Nat) : Option Nat :=
  (st.visited.find? (fun p => p.1 == a)).map (fun p => p.2)

/-- `visited.set(ref, duplicate)`. -/
def Store.setVisited (st : Store) (a d : Nat) : Store :=
  { st with visited := (a, d) :: st.visited }

/-! ## Own-property primitives (the host's reflection surface) -/

/-- `Object.getOwnPropertyDescriptor(value, key)`. -/
def findProp : List (PKey × Descriptor) → PKey → Option Descriptor
  | [], _ => none
  | p :: ps, k => if p.1 = k then some p.2 else findProp ps k

def lookupDesc (o : ObjData) (k : PKey) : Option Descriptor :=
  findProp o.props k

/-- The data value of an own property (`value[key]` restricted to data
descriptors; no claim reads a value through an accessor, so a getter
invocation is out of the model). -/
def getOwnValue (o : ObjData) (k : PKey) : Option Value :=
  match lookupDesc o k with
  | some (.data v _ _ _) => some v
  | _ => none

/-- `Object.defineProperty(target, key, descriptor)`: replace the existing
descriptor in place, or append the key. (Redefinition on a non-configurable
existing property would throw; the engine only defines onto freshly created
shells, so that path is never taken.) -/
def definePropList : List (PKey × Descriptor) → PKey → Descriptor → List (PKey × Descriptor)
  | [], k, d => [(k, d)]
  | p :: ps, k, d => if p.1 = k then (k, d) :: ps else p :: definePropList ps k d

def defineProp (o : ObjData) (k : PKey) (d : Descriptor) : ObjData :=
  { o with props := definePropList o.props k d }

/-- Ordinary `[[Set]]` as exercised by `target[key] = v` on the engine's
result shells: an absent key becomes a fresh enumerable/configurable/
writable data property; a present writable data property has its value
replaced; a non-writable one is left unchanged. (Setter invocation is out
of the model; the engine never assigns through accessors on its shells.) -/
def setDescValue : Descriptor → Value → Descriptor
  | .data old e c w, v => if w then .data v e c w else .data old e c w
  | .accessor g s e c, _ => .accessor g s e c

def setPropList : List (PKey × Descriptor) → PKey → Value → List (PKey × Descriptor)
  | [], k, v => [(k, .data v true true true)]
  | p :: ps, k, v => if p.1 = k then (p.1, setDescValue p.2 v) :: ps else p :: setPropList ps k v

def setProp (o : ObjData) (k : PKey) (v : Value) : ObjData :=
  { o with props := setPropList o.props k v }

/-- String keys in insertion order (`Object.getOwnPropertyNames`). -/
def ownNameKeys (o : ObjData) : List PKey :=
  (o.props.filter (fun p => match p.1 with | .str _ => true | .sym _ => false)).map (fun p => p.1)

/-- Symbol keys in insertion order (`Object.getOwnPropertySymbols`). -/
def ownSymbolKeys (o : ObjData) : List PKey :=
  (o.props.filter (fun p => match p.1 with | .str _ => false | .sym _ => true)).map (fun p => p.1)

/-- The inherited `constructor` of an object freshly created by
`Object.create(proto)`. -/
def ctorOfProto : Proto → Option Ctor
  | .nullProto => none
  | .protoOf c => some c

/-! ## The source module's small predicates -/

/-- `typeof` for a reference: "function" for callables, "object"
otherwise. -/
def typeOfRef (oo : Option ObjData) : String :=
  match oo with
  | some o =>
    match o.internal with
    | .func _ _ => "function"
    | _ => "object"
  | none => "object"

/-- `typeof value`. For references the result depends on whether the object
is callable. -/
def typeOfValue (st : Store) : Value → String
  | .prim .null => "object"
  | .prim .undef => "undefined"
  | .prim (.bool _) => "boolean"
  | .prim (.num _) => "number"
  | .prim (.str _) => "string"
  | .prim (.sym _) => "symbol"
  | .prim (.bigint _) => "bigint"
  | .ref a => typeOfRef (st.getObj a)

/-- `isNonObject` from the source: a `typeof` string that is neither
"object" nor "function". -/
def isNonObject (ty : String) : Bool :=
  ty ≠ "object" && ty ≠ "function"

/-- `isPrimitive` from the source: `null`/`undefined`, or a `typeof` that is
neither "object" nor "function". -/
def isPrimitive (st : Store) (v : Value) : Bool :=
  match v with
  | .prim .null => true
  | .prim .undef => true
  | v => isNonObject (typeOfValue st v)

/-- JavaScript truthiness, as used by `if (value.stack)` and
`if (value.prototype)`. -/
def truthy : Value → Bool
  | .prim .null => false
  | .prim .undef => false
  | .prim (.bool b) => b
  | .prim (.num n) => n ≠ 0
  | .prim (.str s) => s ≠ ""
  | .prim (.sym _) => true
  | .prim (.bigint n) => n ≠ 0
  | .ref _ => true

/-- `isPropertyAccessor(descriptor, key)` from the source:
`descriptor.get || descriptor.set || !enumerable || !configurable ||
!writable || key === "__proto__"`. An accessor descriptor always satisfies
it (it has no `writable` field, so `!descriptor.writable` is already true
in the source). -/
def isPropertyAccessor : Descriptor → PKey → Bool
  | .accessor _ _ _ _, _ => true
  | .data _ e c w, k => !e || !c || !w || k = PKey.str "__proto__"

/-! ## The handler registry (`CloneRegistry`) -/

/-- The identities of the module's handler functions (`Handlers.*`). The
registry maps constructors to these; the interpreter dispatches on them.
There is deliberately no tag for a Promise handler: the module defines
none. -/
inductive HandlerTag where
  | array
  | arrayBuffer
  | asyncFunction
  | asyncGeneratorFunction
  | blob
  | dataView
  | date
  | error
  | file
  | formData
  | function
  | generatorFunction
  | identity
  | map
  | object
  | regexp
  | set
  | typedArray
  | url
  | urlSearchParams
deriving DecidableEq, Repr

/-- `CloneRegistry`: `private handlers = new Map<any, CloneHandler>()`.
`Map.set` overwrite semantics are realised by prepending and taking the
first hit on lookup. -/
structure CloneRegistry where
  handlers : List (Ctor × HandlerTag)
deriving DecidableEq, Repr

/-- `setHandler(constructor, handler)`. The source signature takes exactly
a constructor and a handler: there is no validator parameter. -/
def CloneRegistry.setHandler (r : CloneRegistry) (c : Ctor) (h : HandlerTag) : CloneRegistry :=
  { handlers := (c, h) :: r.handlers }

/-- `hasHandler(constructor)`. -/
def CloneRegistry.hasHandler (r : CloneRegistry) (c : Ctor) : Bool :=
  (r.handlers.find? (fun p => p.1 == c)).isSome

/-- `getHandler(value)`: `this.handlers.get(value?.constructor) ?? null`.
The lookup keys on the value's `constructor` property alone. -/
def CloneRegistry.getHandler (r : CloneRegistry) (st : Store) (v : Value) : Option HandlerTag :=
  match v with
  | .prim _ => none
  | .ref a =>
    match st.getObj a with
    | none => none
    | some o =>
      match o.ctor with
      | none => none
      | some c => (r.handlers.find? (fun p => p.1 == c)).map (fun p => p.2)

/-! ## Object construction helpers used by the handlers -/

def mkPlain (c : Option Ctor) (p : Proto) : ObjData :=
  { ctor := c, proto := p, internal := .plain, props := [] }

def mkDate (t : Int) : ObjData :=
  { ctor := some .date, proto := .protoOf .date, internal := .date t, props := [] }

def mkRegexp (src flags : String) : ObjData :=
  { ctor := some .regexp, proto := .protoOf .regexp, internal := .regexp src flags, props := [] }

def mkBuffer (bytes : List Int) : ObjData :=
  { ctor := some .arrayBuffer, proto := .protoOf .arrayBuffer, internal := .buffer bytes, props := [] }

def mkArray (elems : List (Option Value)) : ObjData :=
  { ctor := some .array, proto := .protoOf .array, internal := .arrayData elems, props := [] }

def mkMap (entries : List (Value × Value)) : ObjData :=
  { ctor := some .map, proto := .protoOf .map, internal := .mapData entries, props := [] }

def mkSet (items : List Value) : ObjData :=
  { ctor := some .set, proto := .protoOf .set, internal := .setData items, props := [] }

/-- The inherited `name` of an error object, read from its prototype when
no own `name` property exists (`Error.prototype.name` etc.). -/
def protoErrName : Proto → String
  | .protoOf .typeError => "TypeError"
  | .protoOf .rangeError => "RangeError"
  | _ => "Error"

/-- `value.message` for an error: the own property, else the prototype's
empty default. -/
def errMessage (o : ObjData) : Value :=
  (getOwnValue o (.str "message")).getD (.prim (.str ""))

/-- `value.name` for an error: the own property, else the prototype's. -/
def errName (o : ObjData) : Value :=
  (getOwnValue o (.str "name")).getD (.prim (.str (protoErrName o.proto)))

/-- `value.stack` for an error: the own property, else `undefined`. -/
def errStack (o : ObjData) : Value :=
  (getOwnValue o (.str "stack")).getD (.prim .undef)

/-- `new Constructor(message)` for an error constructor: a fresh object of
that constructor with own non-enumerable `message` and a host-generated own
`stack` (opaque here, modelled as the empty string). -/
def mkError (c : Ctor) (msg : Value) : ObjData :=
  { ctor := some c, proto := .protoOf c, internal := .plain,
    props := [(.str "message", .data msg false true true),
              (.str "stack", .data (.prim (.str "")) false true true)] }

/-! ## `copyProperties` and the handlers -/

/-- The type of the `clone` callback every handler receives. -/
abbrev CloneCb := Store → Value → Option (Store × Value)

/-- The `enumerate` loop inside `copyProperties`: for each key (except
`"prototype"`), fetch the descriptor; if `isPropertyAccessor` holds,
re-define the identical descriptor on the result; otherwise assign the
recursively cloned value. A missing descriptor is skipped (the
`if (descriptor)` guard). -/
def enumerateKeys (cb : CloneCb) (result value : Nat) : Store → List PKey → Option Store
  | st, [] => some st
  | st, k :: ks =>
    if k = PKey.str "prototype" then enumerateKeys cb result value st ks
    else
      match st.getObj value with
      | none => none
      | some o =>
        match lookupDesc o k with
        | none => enumerateKeys cb result value st ks
        | some d =>
          if isPropertyAccessor d k then
            match st.getObj result with
            | none => none
            | some ro => enumerateKeys cb result value (st.setObj result (defineProp ro k d)) ks
          else
            match d with
            | .data v _ _ _ =>
              match cb st v with
              | none => none
              | some (st1, cv) =>
                match st1.getObj result with
                | none => none
                | some ro => enumerateKeys cb result value (st1.setObj result (setProp ro k cv)) ks
            | .accessor _ _ _ _ => none

/-- `copyProperties(result, value, visited, clone)`: register the result in
the tracker, then enumerate string keys followed by symbol keys. -/
def copyProperties (cb : CloneCb) (st : Store) (result value : Nat) : Option Store :=
  let st1 := st.setVisited value result
  match st1.getObj value with
  | none => none
  | some o =>
    match enumerateKeys cb result value st1 (ownNameKeys o) with
    | none => none
    | some st2 => enumerateKeys cb result value st2 (ownSymbolKeys o)

/-- The own enumerable properties with their values, string keys first:
what `Object.assign` reads from a source. (An enumerable accessor would be
read through its getter; the engine's sources here are function objects
whose enumerable own properties are data properties.) -/
def enumerableOwn (o : ObjData) : List (PKey × Value) :=
  (ownNameKeys o ++ ownSymbolKeys o).filterMap (fun k =>
    match lookupDesc o k with
    | some (.data v true _ _) => some (k, v)
    | _ => none)

def assignList (st : Store) (target : Nat) : List (PKey × Value) → Store
  | [] => st
  | (k, v) :: rest => assignList (st.updateObj target (fun o => setProp o k v)) target rest

/-- `Object.assign(target, source)`: shallow-copy the own enumerable
properties. -/
def objectAssign (st : Store) (target source : Nat) : Option Store :=
  match st.getObj source with
  | none => none
  | some so => some (assignList st target (enumerableOwn so))

namespace Handlers

/-- `Handlers.Date`: `new Date(value.getTime())`. Note that the result is
never registered in `visited`. `getTime` on a receiver without `[[DateValue]]`
throws. -/
def Date (st : Store) (a : Nat) : Option (Store × Value) :=
  match st.getObj a with
  | none => none
  | some o =>
    match o.internal with
    | .date t =>
      let (st1, r) := st.alloc (mkDate t)
      some (st1, .ref r)
    | _ => none

/-- `Handlers.RegExp`: `new RegExp(value.source, value.flags)`; not
registered in `visited`. -/
def RegExp (st : Store) (a : Nat) : Option (Store × Value) :=
  match st.getObj a with
  | none => none
  | some o =>
    match o.internal with
    | .regexp src flags =>
      let (st1, r) := st.alloc (mkRegexp src flags)
      some (st1, .ref r)
    | _ => none

/-- `Handlers.ArrayBuffer`: `value.slice()` — a byte-for-byte copy. -/
def ArrayBuffer (st : Store) (a : Nat) : Option (Store × Value) :=
  match st.getObj a with
  | none => none
  | some o =>
    match o.internal with
    | .buffer bytes =>
      let (st1, r) := st.alloc (mkBuffer bytes)
      some (st1, .ref r)
    | _ => none

/-- `Handlers.TypedArray`:
`new value.constructor(value.buffer.slice(), value.byteOffset, value.length)`.
The buffer is sliced (fresh copy), the constructor, byte offset and length
are the source's. Not registered in `visited`. -/
def TypedArray (st : Store) (a : Nat) : Option (Store × Value) :=
  match st.getObj a with
  | none => none
  | some o =>
    match o.internal with
    | .typedArray buf off len =>
      match st.getObj buf with
      | none => none
      | some b =>
        match b.internal with
        | .buffer bytes =>
          let (st1, nb) := st.alloc (mkBuffer bytes)
          let (st2, r) := st1.alloc
            { ctor := o.ctor, proto := o.proto, internal := .typedArray nb off len, props := [] }
          some (st2, .ref r)
        | _ => none
    | _ => none

/-- `Handlers.DataView`:
`new DataView(value.buffer.slice(), value.byteOffset, value.byteLength)`. -/
def DataView (st : Store) (a : Nat) : Option (Store × Value) :=
  match st.getObj a with
  | none => none
  | some o =>
    match o.internal with
    | .dataView buf off blen =>
      match st.getObj buf with
      | none => none
      | some b =>
        match b.internal with
        | .buffer bytes =>
          let (st1, nb) := st.alloc (mkBuffer bytes)
          let (st2, r) := st1.alloc
            { ctor := some .dataView, proto := .protoOf .dataView,
              internal := .dataView nb off blen, props := [] }
          some (st2, .ref r)
        | _ => none
    | _ => none

/-- `Handlers.Identity`: return the value itself (used for WeakMap, WeakSet
and WeakRef). -/
def Identity (st : Store) (a : Nat) : Option (Store × Value) :=
  some (st, .ref a)

/-- `Handlers.Object`: `Object.create(Object.getPrototypeOf(value))`, then
`copyProperties`. Internal slots are not copied by `Object.create`. -/
def Object (cb : CloneCb) (st : Store) (a : Nat) : Option (Store × Value) :=
  match st.getObj a with
  | none => none
  | some o =>
    let (st1, r) := st.alloc (mkPlain (ctorOfProto o.proto) o.proto)
    match copyProperties cb st1 r a with
    | none => none
    | some st2 => some (st2, .ref r)

/-- The per-element loop of `Handlers.Array`: indices present in the source
are cloned; holes stay holes. -/
def arrayItems (cb : CloneCb) (r : Nat) : Store → List (Option Value) → Option Store
  | st, [] => some st
  | st, none :: rest =>
    match st.getObj r with
    | none => none
    | some ro =>
      match ro.internal with
      | .arrayData es => arrayItems cb r (st.setObj r { ro with internal := .arrayData (es ++ [none]) }) rest
      | _ => none
  | st, some v :: rest =>
    match cb st v with
    | none => none
    | some (st1, cv) =>
      match st1.getObj r with
      | none => none
      | some ro =>
        match ro.internal with
        | .arrayData es => arrayItems cb r (st1.setObj r { ro with internal := .arrayData (es ++ [some cv]) }) rest
        | _ => none

/-- `Handlers.Array`: `new Array(length)`, register in `visited`, then copy
only the indices that are present. -/
def Array (cb : CloneCb) (st : Store) (a : Nat) : Option (Store × Value) :=
  match st.getObj a with
  | none => none
  | some o =>
    match o.internal with
    | .arrayData elems =>
      let (st1, r) := st.alloc (mkArray [])
      let st2 := st1.setVisited a r
      match arrayItems cb r st2 elems with
      | none => none
      | some st3 => some (st3, .ref r)
    | _ => none

def mapItems (cb : CloneCb) (r : Nat) : Store → List (Value × Value) → Option Store
  | st, [] => some st
  | st, (k, v) :: rest =>
    match cb st k with
    | none => none
    | some (st1, ck) =>
      match cb st1 v with
      | none => none
      | some (st2, cv) =>
        match st2.getObj r with
        | none => none
        | some ro =>
          match ro.internal with
          | .mapData es => mapItems cb r (st2.setObj r { ro with internal := .mapData (es ++ [(ck, cv)]) }) rest
          | _ => none

/-- `Handlers.Map`: `new Map()`, register in `visited`, then set each entry
with independently cloned key and value. -/
def Map (cb : CloneCb) (st : Store) (a : Nat) : Option (Store × Value) :=
  match st.getObj a with
  | none => none
  | some o =>
    match o.internal with
    | .mapData entries =>
      let (st1, r) := st.alloc (mkMap [])
      let st2 := st1.setVisited a r
      match mapItems cb r st2 entries with
      | none => none
      | some st3 => some (st3, .ref r)
    | _ => none

def setItems (cb : CloneCb) (r : Nat) : Store → List Value → Option Store
  | st, [] => some st
  | st, v :: rest =>
    match cb st v with
    | none => none
    | some (st1, cv) =>
      match st1.getObj r with
      | none => none
      | some ro =>
        match ro.internal with
        | .setData es => setItems cb r (st1.setObj r { ro with internal := .setData (es ++ [cv]) }) rest
        | _ => none

/-- `Handlers.Set`: `new Set()`, register in `visited`, then add each
cloned member. -/
def Set (cb : CloneCb) (st : Store) (a : Nat) : Option (Store × Value) :=
  match st.getObj a with
  | none => none
  | some o =>
    match o.internal with
    | .setData items =>
      let (st1, r) := st.alloc (mkSet [])
      let st2 := st1.setVisited a r
      match setItems cb r st2 items with
      | none => none
      | some st3 => some (st3, .ref r)
    | _ => none

/-- `Handlers.Error`: `new (value.constructor)(value.message)`, then
`result.name = value.name`, `if (value.stack) result.stack = value.stack`,
then `copyProperties`. -/
def Error (cb : CloneCb) (st : Store) (a : Nat) : Option (Store × Value) :=
  match st.getObj a with
  | none => none
  | some o =>
    match o.ctor with
    | none => none
    | some c =>
      let (st1, r) := st.alloc (mkError c (errMessage o))
      let st2 := st1.updateObj r (fun ro => setProp ro (.str "name") (errName o))
      let st3 :=
        if truthy (errStack o) then st2.updateObj r (fun ro => setProp ro (.str "stack") (errStack o))
        else st2
      match copyProperties cb st3 r a with
      | none => none
      | some st4 => some (st4, .ref r)

/-- The `if (value.prototype) Object.assign(result.prototype, value.prototype)`
step of `cloneFunctionProperties`: when the source function has a
`prototype` object, its own enumerable properties are shallow-assigned onto
the wrapper's `prototype` object (if the wrapper has none, as for an async
wrapper, `Object.assign(undefined, …)` would throw). -/
def protoAssign (st : Store) (resultProto valueProto : Option Nat) : Option Store :=
  match valueProto, resultProto with
  | some vp, some rp => objectAssign st rp vp
  | some _, none => none
  | none, _ => some st

/-- `cloneFunctionProperties(value, result, visited, clone)`:
`Object.assign(result, value)`; if `value.prototype` exists,
`Object.assign(result.prototype, value.prototype)`; then
`copyProperties(result, value, visited, clone)` (whose enumerate loop skips
the `"prototype"` key). -/
def cloneFunctionProperties (cb : CloneCb) (st : Store) (value result : Nat)
    (resultProto : Option Nat) (valueProto : Option Nat) : Option (Store × Value) :=
  match objectAssign st result value with
  | none => none
  | some st1 =>
    match protoAssign st1 resultProto valueProto with
    | none => none
    | some st3 =>
      match copyProperties cb st3 result value with
      | none => none
      | some st4 => some (st4, .ref result)

/-- `Handlers.Function`: `createInstance(value)` builds a fresh wrapper
function (with its own fresh automatic `prototype` object) whose plain call
runs `value.apply(this, args)`; then `cloneFunctionProperties`. The fresh
prototype object's own `constructor` refers back to the wrapper and is not
inspected by any claim, so it is modelled opaque. -/
def Function (cb : CloneCb) (st : Store) (a : Nat) : Option (Store × Value) :=
  match st.getObj a with
  | none => none
  | some o =>
    match o.internal with
    | .func b protoOpt =>
      let (st1, pAddr) := st.alloc (mkPlain none (.protoOf .object))
      let (st2, r) := st1.alloc
        { ctor := some .function, proto := .protoOf .function,
          internal := .func (.wrapper b) (some pAddr), props := [] }
      cloneFunctionProperties cb st2 a r (some pAddr) protoOpt
    | _ => none

/-- `Handlers.AsyncFunction`: `createAsyncInstance(value)` — the same
delegating wrapper, declared `async`, which has no automatic `prototype`
object; then `cloneFunctionProperties`. -/
def AsyncFunction (cb : CloneCb) (st : Store) (a : Nat) : Option (Store × Value) :=
  match st.getObj a with
  | none => none
  | some o =>
    match o.internal with
    | .func b protoOpt =>
      let (st1, r) := st.alloc
        { ctor := some .asyncFunction, proto := .protoOf .asyncFunction,
          internal := .func (.wrapper b) none, props := [] }
      cloneFunctionProperties cb st1 a r none protoOpt
    | _ => none

/-- `Handlers.GeneratorFunction`: `createGeneratorInstance(value)` — the
delegating wrapper declared as a generator (it has an automatic `prototype`
object); then `cloneFunctionProperties`. -/
def GeneratorFunction (cb : CloneCb) (st : Store) (a : Nat) : Option (Store × Value) :=
  match st.getObj a with
  | none => none
  | some o =>
    match o.internal with
    | .func b protoOpt =>
      let (st1, pAddr) := st.alloc (mkPlain none (.protoOf .object))
      let (st2, r) := st1.alloc
        { ctor := some .generatorFunction, proto := .protoOf .generatorFunction,
          internal := .func (.wrapper b) (some pAddr), props := [] }
      cloneFunctionProperties cb st2 a r (some pAddr) protoOpt
    | _ => none

/-- `Handlers.AsyncGeneratorFunction`: `createAsyncGeneratorInstance(value)`
— the delegating wrapper declared as an async generator; then
`cloneFunctionProperties`. -/
def AsyncGeneratorFunction (cb : CloneCb) (st : Store) (a : Nat) : Option (Store × Value) :=
  match st.getObj a with
  | none => none
  | some o =>
    match o.internal with
    | .func b protoOpt =>
      let (st1, pAddr) := st.alloc (mkPlain none (.protoOf .object))
      let (st2, r) := st1.alloc
        { ctor := some .asyncGeneratorFunction, proto := .protoOf .asyncGeneratorFunction,
          internal := .func (.wrapper b) (some pAddr), props := [] }
      cloneFunctionProperties cb st2 a r (some pAddr) protoOpt
    | _ => none

/-- `Handlers.URL`: `new URL(value.href)`. -/
def URL (st : Store) (a : Nat) : Option (Store × Value) :=
  match st.getObj a with
  | none => none
  | some o =>
    match o.internal with
    | .url href =>
      let (st1, r) := st.alloc
        { ctor := some .url, proto := .protoOf .url, internal := .url href, props := [] }
      some (st1, .ref r)
    | _ => none

/-- `Handlers.URLSearchParams`: `new URLSearchParams(value)` — a fresh copy
of the entry list. -/
def URLSearchParams (st : Store) (a : Nat) : Option (Store × Value) :=
  match st.getObj a with
  | none => none
  | some o =>
    match o.internal with
    | .urlSearchParams entries =>
      let (st1, r) := st.alloc
        { ctor := some .urlSearchParams, proto := .protoOf .urlSearchParams,
          internal := .urlSearchParams entries, props := [] }
      some (st1, .ref r)
    | _ => none

/-- `Handlers.FormData`: `new FormData()` then append every entry of the
source — a fresh copy of the entry list. -/
def FormData (st : Store) (a : Nat) : Option (Store × Value) :=
  match st.getObj a with
  | none => none
  | some o =>
    match o.internal with
    | .formData entries =>
      let (st1, r) := st.alloc
        { ctor := some .formData, proto := .protoOf .formData,
          internal := .formData entries, props := [] }
      some (st1, .ref r)
    | _ => none

/-- `Handlers.Blob`: `new Blob([value], { type: value.type })`. -/
def Blob (st : Store) (a : Nat) : Option (Store × Value) :=
  match st.getObj a with
  | none => none
  | some o =>
    match o.internal with
    | .blob content ty =>
      let (st1, r) := st.alloc
        { ctor := some .blob, proto := .protoOf .blob, internal := .blob content ty, props := [] }
      some (st1, .ref r)
    | _ => none

/-- `Handlers.File`:
`new File([value], value.name, { lastModified, type })`. -/
def File (st : Store) (a : Nat) : Option (Store × Value) :=
  match st.getObj a with
  | none => none
  | some o =>
    match o.internal with
    | .file content name ty lm =>
      let (st1, r) := st.alloc
        { ctor := some .file, proto := .protoOf .file,
          internal := .file content name ty lm, props := [] }
      some (st1, .ref r)
    | _ => none

end Handlers

/-- Dispatch from a handler tag to the handler function, supplying the
recursive `clone` callback where the source handler takes one. -/
def applyHandler (h : HandlerTag) (cb : CloneCb) (st : Store) (a : Nat) : Option (Store × Value) :=
  match h with
  | .array => Handlers.Array cb st a
  | .arrayBuffer => Handlers.ArrayBuffer st a
  | .asyncFunction => Handlers.AsyncFunction cb st a
  | .asyncGeneratorFunction => Handlers.AsyncGeneratorFunction cb st a
  | .blob => Handlers.Blob st a
  | .dataView => Handlers.DataView st a
  | .date => Handlers.Date st a
  | .error => Handlers.Error cb st a
  | .file => Handlers.File st a
  | .formData => Handlers.FormData st a
  | .function => Handlers.Function cb st a
  | .generatorFunction => Handlers.GeneratorFunction cb st a
  | .identity => Handlers.Identity st a
  | .map => Handlers.Map cb st a
  | .object => Handlers.Object cb st a
  | .regexp => Handlers.RegExp st a
  | .set => Handlers.Set cb st a
  | .typedArray => Handlers.TypedArray st a
  | .url => Handlers.URL st a
  | .urlSearchParams => Handlers.URLSearchParams st a

/-- The `clone` closure built by `createCloneFunction`: primitives are
returned as-is; a tracked reference returns its tracked duplicate; else the
registry handler for the value's constructor runs, falling back to
`Handlers.Object`. Fuel bounds the recursion depth (the source recursion
terminates through the visited tracker; fuel only totalises the model). -/
def cloneRun (reg : CloneRegistry) : Nat → Store → Value → Option (Store × Value)
  | 0, _, _ => none
  | n + 1, st, v =>
    if isPrimitive st v then some (st, v)
    else
      match v with
      | .prim p => some (st, .prim p)
      | .ref a =>
        match st.lookupVisited a with
        | some d => some (st, .ref d)
        | none =>
          match reg.getHandler st (.ref a) with
          | some h => applyHandler h (fun st1 v1 => cloneRun reg n st1 v1) st a
          | none => Handlers.Object (fun st1 v1 => cloneRun reg n st1 v1) st a

/-- `registerFunctionConstructors(registry)`. -/
def registerFunctionConstructors (r : CloneRegistry) : CloneRegistry :=
  (((r.setHandler .function .function).setHandler
      .asyncFunction .asyncFunction).setHandler
      .generatorFunction .generatorFunction).setHandler
      .asyncGeneratorFunction .asyncGeneratorFunction

/-- `registerTypedArrayConstructors(registry)`. -/
def registerTypedArrayConstructors (r : CloneRegistry) : CloneRegistry :=
  [Ctor.int8Array, .uint8Array, .uint8ClampedArray, .int16Array, .uint16Array,
   .int32Array, .uint32Array, .float32Array, .float64Array,
   .bigInt64Array, .bigUint64Array].foldl (fun acc c => acc.setHandler c .typedArray) r

/-- `registerWeakCollections(registry)`: WeakMap, WeakSet and WeakRef are
mapped to the Identity handler. -/
def registerWeakCollections (r : CloneRegistry) : CloneRegistry :=
  [Ctor.weakMap, .weakSet, .weakRef].foldl (fun acc c => acc.setHandler c .identity) r

/-- `createDefaultRegistry()`: the source's registration chain, in order.
No handler is registered for `Promise`. -/
def createDefaultRegistry : CloneRegistry :=
  let r : CloneRegistry := { handlers := [] }
  let r := (((((((((((((r.setHandler .date .date).setHandler
    .regexp .regexp).setHandler
    .array .array).setHandler
    .map .map).setHandler
    .set .set).setHandler
    .arrayBuffer .arrayBuffer).setHandler
    .dataView .dataView).setHandler
    .error .error).setHandler
    .url .url).setHandler
    .urlSearchParams .urlSearchParams).setHandler
    .formData .formData).setHandler
    .blob .blob).setHandler
    .file .file).setHandler
    .object .object
  let r := registerFunctionConstructors r
  let r := registerTypedArrayConstructors r
  registerWeakCollections r

/-- `createCloneFunction(registryModifier)`. -/
def createCloneFunction (modifier : CloneRegistry → CloneRegistry) :
    Nat → Store → Value → Option (Store × Value) :=
  cloneRun (modifier createDefaultRegistry)

/-- The module's default export: `const clone = createCloneFunction()`. -/
def clone (fuel : Nat) (st : Store) (v : Value) : Option (Store × Value) :=
  cloneRun createDefaultRegistry fuel st v

/-! ## The observable behaviour of callables -/

/-- A plain (non-`new`) call of a function object, parameterised by the
host's application of an original body to a `this` binding and an argument
list. `createInstance`'s wrapper runs `value.apply(this, args)`: the same
`this`, the same arguments, delegated to the wrapped behaviour, so closure
state is the original's. -/
def plainCall {R : Type} (invoke : Nat → Value → List Value → R) :
    FnBehavior → Value → List Value → R
  | .body code, this, args => invoke code this args
  | .wrapper inner, this, args => plainCall invoke inner this args

/-! ## Observation helpers for concrete runs -/

/-- The address of the duplicate produced by a top-level `clone` call. -/
def cloneAddr (fuel : Nat) (st : Store) (v : Value) : Option Nat :=
  match clone fuel st v with
  | some (_, .ref r) => some r
  | _ => none

/-- The final store of a top-level `clone` call. -/
def cloneStore (fuel : Nat) (st : Store) (v : Value) : Option Store :=
  (clone fuel st v).map (fun p => p.1)

/-- An own property value of the duplicate. -/
def cloneOwn (fuel : Nat) (st : Store) (v : Value) (k : PKey) : Option Value :=
  match clone fuel st v with
  | some (st1, .ref r) => (st1.getObj r).bind (fun o => getOwnValue o k)
  | _ => none

/-- The internal slots of the duplicate. -/
def cloneInternal (fuel : Nat) (st : Store) (v : Value) : Option Internal :=
  match clone fuel st v with
  | some (st1, .ref r) => (st1.getObj r).map (fun o => o.internal)
  | _ => none

/-- The prototype of the duplicate. -/
def cloneProto (fuel : Nat) (st : Store) (v : Value) : Option Proto :=
  match clone fuel st v with
  | some (st1, .ref r) => (st1.getObj r).map (fun o => o.proto)
  | _ => none

/-- The bytes of an `ArrayBuffer` object. -/
def bufferBytes (st : Store) (a : Nat) : Option (List Int) :=
  match st.getObj a with
  | some o =>
    match o.internal with
    | .buffer bytes => some bytes
    | _ => none
  | none => none

/-- The bytes of the buffer backing a TypedArray or DataView. -/
def backingBytes (st : Store) (a : Nat) : Option (List Int) :=
  match st.getObj a with
  | some o =>
    match o.internal with
    | .typedArray b _ _ => bufferBytes st b
    | .dataView b _ _ => bufferBytes st b
    | _ => none
  | none => none

/-- Mutate one byte of an `ArrayBuffer` in place (e.g. through a view on
it), as the frame-effect claims do after duplication. -/
def writeBuffer (st : Store) (a : Nat) (i : Nat) (x : Int) : Store :=
  st.updateObj a (fun o =>
    match o.internal with
    | .buffer bytes => { o with internal := .buffer (bytes.set i x) }
    | _ => o)

/-! ## Concrete source graphs for the verified scenarios -/

/-- A genuine `Promise` instance (e.g. `Promise.resolve("resolved value")`):
constructor `Promise`, prototype `Promise.prototype`, and the promise
internal slots. It has no own properties. -/
def promiseStore : Store :=
  { heap := [{ ctor := some .promise, proto := .protoOf .promise,
               internal := .promiseState, props := [] }],
    visited := [] }

/-- `a = {}; a.self = a`: a single plain object whose `self` field refers
back to itself. -/
def cycleStore : Store :=
  { heap := [{ ctor := some .object, proto := .protoOf .object, internal := .plain,
               props := [(.str "self", .data (.ref 0) true true true)] }],
    visited := [] }

/-- A container whose two fields reference the same `Date` object. -/
def dateSharedStore : Store :=
  { heap := [{ ctor := some .object, proto := .protoOf .object, internal := .plain,
               props := [(.str "x", .data (.ref 1) true true true),
                         (.str "y", .data (.ref 1) true true true)] },
             mkDate 42],
    visited := [] }

/-- A container whose two fields reference the same `RegExp` object. -/
def regexpSharedStore : Store :=
  { heap := [{ ctor := some .object, proto := .protoOf .object, internal := .plain,
               props := [(.str "x", .data (.ref 1) true true true),
                         (.str "y", .data (.ref 1) true true true)] },
             mkRegexp "test" "gi"],
    visited := [] }

/-- `Object.create(Date.prototype)`: a value whose (inherited) `constructor`
is `Date` but which carries no `[[DateValue]]` internal slot — it
superficially matches the `Date` type identifier while not being a valid
`Date` (it fails the validator the project's documentation pairs with the
Date handler). -/
def fakeDateStore : Store :=
  { heap := [{ ctor := some .date, proto := .protoOf .date, internal := .plain,
               props := [] }],
    visited := [] }

/-- An object with no reachable `constructor` property:
`Object.create(null)` with one data field. -/
def nullProtoStore : Store :=
  { heap := [{ ctor := none, proto := .nullProto, internal := .plain,
               props := [(.str "a", .data (.prim (.num 1)) true true true)] }],
    visited := [] }

/-- An object whose `constructor` property evaluates to `Date` although the
object is not a `Date` instance (e.g. it inherits `Date` as constructor
from a prototype, or carries it as an own property). -/
def constructorDateStore : Store :=
  { heap := [{ ctor := some .date, proto := .protoOf .object, internal := .plain,
               props := [(.str "a", .data (.prim (.num 1)) true true true)] }],
    visited := [] }

/-- A `TypeError` instance: constructor `TypeError`, prototype
`TypeError.prototype`, own non-enumerable `message` and `stack`. -/
def typeErrStore : Store :=
  { heap := [{ ctor := some .typeError, proto := .protoOf .typeError, internal := .plain,
               props := [(.str "message", .data (.prim (.str "boom")) false true true),
                         (.str "stack", .data (.prim (.str "trace")) false true true)] }],
    visited := [] }

/-- A direct `Error` instance with own `message`, `stack` and a custom
enumerable `code` field. -/
def errStore : Store :=
  { heap := [{ ctor := some .error, proto := .protoOf .error, internal := .plain,
               props := [(.str "message", .data (.prim (.str "msg")) false true true),
                         (.str "stack", .data (.prim (.str "trace")) false true true),
                         (.str "code", .data (.prim (.num 500)) true true true)] }],
    visited := [] }

/-- A function object with behaviour `b`, an (empty) `prototype` object at
address 0, and a custom own enumerable property `customProp`. -/
def fnStore (b : FnBehavior) : Store :=
  { heap := [{ ctor := none, proto := .protoOf .object, internal := .plain, props := [] },
             { ctor := some .function, proto := .protoOf .function,
               internal := .func b (some 0),
               props := [(.str "customProp", .data (.prim (.str "regular")) true true true)] }],
    visited := [] }

/-- An `Int32Array` over the buffer at address 0, with the given bytes,
byte offset and element length. -/
def taStore (bytes : List Int) (off len : Nat) : Store :=
  { heap := [mkBuffer bytes,
             { ctor := some .int32Array, proto := .protoOf .int32Array,
               internal := .typedArray 0 off len, props := [] }],
    visited := [] }

/-- A `DataView` over the buffer at address 0. -/
def dvStore (bytes : List Int) (off blen : Nat) : Store :=
  { heap := [mkBuffer bytes,
             { ctor := some .dataView, proto := .protoOf .dataView,
               internal := .dataView 0 off blen, props := [] }],
    visited := [] }

/-- A `WeakMap` instance. -/
def weakStore : Store :=
  { heap := [{ ctor := some .weakMap, proto := .protoOf .weakMap,
               internal := .weak, props := [] }],
    visited := [] }

/-- `{ a: 1, b: { c: 2 } }`: address 0 the container, address 1 the nested
object. -/
def pairStore : Store :=
  { heap := [{ ctor := some .object, proto := .protoOf .object, internal := .plain,
               props := [(.str "a", .data (.prim (.num 1)) true true true),
                         (.str "b", .data (.ref 1) true true true)] },
             { ctor := some .object, proto := .protoOf .object, internal := .plain,
               props := [(.str "c", .data (.prim (.num 2)) true true true)] }],
    visited := [] }

/-- A single empty plain object. -/
def emptyStore : Store :=
  { heap := [mkPlain (some .object) (.protoOf .object)], visited := [] }

/-- The result of duplicating `emptyStore`'s object: the duplicate shell is
appended and the tracker records the pair. -/
def clonedEmptyStore : Store :=
  { heap := [mkPlain (some .object) (.protoOf .object),
             mkPlain (some .object) (.protoOf .object)],
    visited := [(0, 1)] }

/-- An object carrying an own enumerable/configurable/writable data
property literally named `__proto__` (constructible in the host, e.g. via
`JSON.parse`), whose value is the nested object at address 1. -/
def protoKeyStore : Store :=
  { heap := [{ ctor := some .object, proto := .protoOf .object, internal := .plain,
               props := [(.str "__proto__", .data (.ref 1) true true true)] },
             { ctor := some .object, proto := .protoOf .object, internal := .plain,
               props := [(.str "c", .data (.prim (.num 2)) true true true)] }],
    visited := [] }

/-- An object with an accessor property `val` (getter id 5, setter id 6)
and an empty duplicate shell at address 1. -/
def accessorStore : Store :=
  { heap := [{ ctor := some .object, proto := .protoOf .object, internal := .plain,
               props := [(.str "val", .accessor (some 5) (some 6) true true)] },
             mkPlain (some .object) (.protoOf .object)],
    visited := [] }

/-! ## Supporting lemmas -/

/-- A reference is never primitive: `typeof` yields "object" or "function",
so the engine's primitive short-circuit does not fire. -/
theorem isPrimitive_ref (st : Store) (a : Nat) : isPrimitive st (.ref a) = false := by
  show isNonObject (typeOfRef (st.getObj a)) = false
  cases h : st.getObj a with
  | none => simp [typeOfRef, isNonObject]
  | some o =>
    obtain ⟨c, p, i, props⟩ := o
    cases i <;> simp [typeOfRef, isNonObject]

/-- `Object.defineProperty` stores the descriptor it is given, unchanged. -/
theorem findProp_definePropList (ps : List (PKey × Descriptor)) (k : PKey) (d : Descriptor) :
    findProp (definePropList ps k d) k = some d := by
  induction ps with
  | nil => simp [definePropList, findProp]
  | cons p ps ih =>
    by_cases h : p.1 = k
    · simp [definePropList, h, findProp]
    · simp [definePropList, h, findProp, ih]

/-- Assignment to an absent key creates an enumerable, configurable,
writable data property holding exactly the assigned value. -/
theorem findProp_setPropList_fresh (ps : List (PKey × Descriptor)) (k : PKey) (v : Value)
    (h : findProp ps k = none) :
    findProp (setPropList ps k v) k = some (.data v true true true) := by
  induction ps with
  | nil => simp [setPropList, findProp]
  | cons p ps ih =>
    by_cases hpk : p.1 = k
    · simp [findProp, hpk] at h
    · simp only [findProp, hpk, if_false] at h
      simp [setPropList, hpk, findProp, ih h]

/-! ## The claims -/

/-- Claim C1: the spec (and the repository's own test suite) says that
duplicating a genuine Promise yields a new promise that settles by
forwarding the source's resolution/rejection through a duplicated value or
error. The default registry registers no handler for `Promise`, so a
genuine Promise instance falls through to the generic object handler:
`getHandler` returns nothing for it, and the duplicate is an
`Object.create(Promise.prototype)` shell whose internal state is plain —
it carries no promise internal slots at all (`Internal.plain`, not
`Internal.promiseState`), so it cannot settle by forwarding anything;
awaiting it throws in the host. This contradicts the claim. -/
theorem c1_promise_duplicate_lacks_promise_state :
    CloneRegistry.getHandler createDefaultRegistry promiseStore (.ref 0) = none
    ∧ cloneAddr 5 promiseStore (.ref 0) = some 1
    ∧ cloneInternal 5 promiseStore (.ref 0) = some Internal.plain
    ∧ cloneProto 5 promiseStore (.ref 0) = some (Proto.protoOf .promise)
    ∧ Internal.plain ≠ Internal.promiseState :=
  ⟨rfl, rfl, rfl, rfl, by decide⟩

/-- Counterexample to claim C5: registry lookup is by the value's exact
constructor, and only `Error` itself is registered, so a `TypeError`
instance is NOT handled by the Error strategy: `getHandler` finds nothing
and the generic object handler runs. The duplicate is not built by calling
the concrete constructor with the message, and no own `name` property is
copied onto it (the Error handler's `result.name = value.name` would have
created one), contradicting "for every Error instance, including instances
of Error subclasses". -/
theorem c5_error_subclass_bypasses_error_handler :
    CloneRegistry.getHandler createDefaultRegistry typeErrStore (.ref 0) = none
    ∧ cloneOwn 5 typeErrStore (.ref 0) (.str "name") = none
    ∧ cloneOwn 5 typeErrStore (.ref 0) (.str "message") = some (.prim (.str "boom")) :=
  ⟨rfl, rfl, rfl⟩

/-- Claim C5 as amended: a direct `Error` instance (constructor `Error`
itself) is dispatched to the Error handler, which constructs the duplicate
with the source's concrete constructor from the source's message, copies
`name` and `stack` explicitly, and copies the remaining own properties via
the property-transfer routine; instances of Error subclasses such as
`TypeError` fall back to the generic object strategy because dispatch is by
exact constructor (see the counterexample). -/
theorem c5_error_handler_on_direct_instances :
    CloneRegistry.getHandler createDefaultRegistry errStore (.ref 0) = some HandlerTag.error
    ∧ cloneAddr 5 errStore (.ref 0) = some 1
    ∧ (cloneStore 5 errStore (.ref 0)).bind (fun st => (st.getObj 1).map (fun o => o.ctor))
        = some (some Ctor.error)
    ∧ cloneProto 5 errStore (.ref 0) = some (.protoOf .error)
    ∧ cloneOwn 5 errStore (.ref 0) (.str "message") = some (.prim (.str "msg"))
    ∧ cloneOwn 5 errStore (.ref 0) (.str "name") = some (.prim (.str "Error"))
    ∧ cloneOwn 5 errStore (.ref 0) (.str "stack") = some (.prim (.str "trace"))
    ∧ cloneOwn 5 errStore (.ref 0) (.str "code") = some (.prim (.num 500)) :=
  ⟨rfl, rfl, rfl, rfl, rfl, rfl, rfl, rfl⟩

/-- Counterexample to claim C8: a `WeakMap` instance is a reference-typed
value that duplicates successfully, yet its duplicate is the very same
reference (the Identity handler), so `duplicate(v) !== v` fails for it. -/
theorem c8_weak_collection_identity_counterexample :
    clone 5 weakStore (.ref 0) = some (weakStore, .ref 0) := rfl

/-- Claim C10: the Date and RegExp handlers never register their result in
the reference tracker, so a container holding the same `Date` (or `RegExp`)
in two fields duplicates to two distinct objects: `x` receives the object
allocated at address 3 and `y` a second one at address 4, both carrying the
same timestamp (or pattern/flags) — reference sharing is not preserved,
unlike for shared plain objects. -/
theorem c10_date_regexp_sharing_not_preserved :
    cloneOwn 6 dateSharedStore (.ref 0) (.str "x") = some (.ref 3)
    ∧ cloneOwn 6 dateSharedStore (.ref 0) (.str "y") = some (.ref 4)
    ∧ Value.ref 3 ≠ Value.ref 4
    ∧ (cloneStore 6 dateSharedStore (.ref 0)).bind
        (fun st => (st.getObj 3).map (fun o => o.internal)) = some (.date 42)
    ∧ (cloneStore 6 dateSharedStore (.ref 0)).bind
        (fun st => (st.getObj 4).map (fun o => o.internal)) = some (.date 42)
    ∧ cloneOwn 6 regexpSharedStore (.ref 0) (.str "x") = some (.ref 3)
    ∧ cloneOwn 6 regexpSharedStore (.ref 0) (.str "y") = some (.ref 4)
    ∧ (cloneStore 6 regexpSharedStore (.ref 0)).bind
        (fun st => (st.getObj 4).map (fun o => o.internal)) = some (.regexp "test" "gi") :=
  ⟨rfl, rfl, by decide, rfl, rfl, rfl, rfl, rfl⟩

/-- Claim C4: duplicating a function yields a distinct callable — the
source at address 1 duplicates to the fresh wrapper at address 3 — whose
behaviour is `createInstance`'s wrapper around the original behaviour, and
whose custom own properties are carried over. The wrapper, invoked as a
plain call, forwards its `this` binding and arguments to the original
function body, hence returns the same result as the original for the same
inputs, whatever the host's application semantics `invoke` are. -/
theorem c4_function_duplicate_delegates_and_keeps_properties :
    (∀ (b : FnBehavior),
      cloneAddr 6 (fnStore b) (.ref 1) = some 3
      ∧ cloneInternal 6 (fnStore b) (.ref 1) = some (.func (.wrapper b) (some 2))
      ∧ cloneOwn 6 (fnStore b) (.ref 1) (.str "customProp") = some (.prim (.str "regular")))
    ∧ (∀ (R : Type) (invoke : Nat → Value → List Value → R) (b : FnBehavior)
        (thisV : Value) (args : List Value),
      plainCall invoke (.wrapper b) thisV args = plainCall invoke b thisV args) :=
  ⟨fun _ => ⟨rfl, rfl, rfl⟩, fun _ _ _ _ _ => rfl⟩

/-- Claim C7: duplicating a TypedArray (here an `Int32Array` at address 1
over the buffer at address 0) allocates a fresh buffer at address 2 and a
fresh view at address 3 with the same byte offset and length; the copied
bytes equal the source's, and writing any byte of the source's backing
buffer after duplication leaves the duplicate's backing bytes unchanged.
The same holds for a `DataView` (same byte offset and byteLength). -/
theorem c7_typed_array_buffer_independence :
    ∀ (bytes : List Int) (off len blen i : Nat) (x : Int),
      cloneAddr 5 (taStore bytes off len) (.ref 1) = some 3
      ∧ cloneInternal 5 (taStore bytes off len) (.ref 1) = some (.typedArray 2 off len)
      ∧ (cloneStore 5 (taStore bytes off len) (.ref 1)).bind
          (fun st => backingBytes st 3) = some bytes
      ∧ (cloneStore 5 (taStore bytes off len) (.ref 1)).bind
          (fun st => backingBytes (writeBuffer st 0 i x) 3) = some bytes
      ∧ cloneAddr 5 (dvStore bytes off blen) (.ref 1) = some 3
      ∧ cloneInternal 5 (dvStore bytes off blen) (.ref 1) = some (.dataView 2 off blen)
      ∧ (cloneStore 5 (dvStore bytes off blen) (.ref 1)).bind
          (fun st => backingBytes (writeBuffer st 0 i x) 3) = some bytes :=
  fun _ _ _ _ _ _ => ⟨rfl, rfl, rfl, rfl, rfl, rfl, rfl⟩

/-- Counterexample to claim C3: `setHandler` stores only a (constructor,
handler) pair — the source signature has no validator parameter — and for
a value that superficially matches a registered type identifier while
failing the validator the documentation pairs with it (here
`Object.create(Date.prototype)`: constructor `Date`, but no `[[DateValue]]`,
so `value instanceof Date` semantics are violated), the entry point does
NOT return the original value: the Date strategy is dispatched anyway and
its `value.getTime()` call throws (modelled as `none`). -/
theorem c3_no_identity_fallback_counterexample :
    CloneRegistry.getHandler createDefaultRegistry fakeDateStore (.ref 0) = some HandlerTag.date
    ∧ clone 5 fakeDateStore (.ref 0) = none
    ∧ clone 5 fakeDateStore (.ref 0) ≠ some (fakeDateStore, .ref 0) :=
  ⟨rfl, rfl, by decide⟩

/-- Claim C3 as amended: registration takes only a constructor and a
strategy (no validator), and after registering, every value whose
`constructor` property equals that constructor is dispatched to that exact
strategy regardless of its actual shape — validity is never consulted and
there is no identity fallback; an invalid shape makes the strategy itself
throw (the concrete conjuncts: the invalid Date-shaped value is dispatched
to the Date strategy and the call fails rather than returning the
original). -/
theorem c3_registration_has_no_validator :
    (∀ (r : CloneRegistry) (c : Ctor) (h : HandlerTag) (st : Store) (a : Nat) (o : ObjData),
      st.getObj a = some o → o.ctor = some c →
      (r.setHandler c h).getHandler st (.ref a) = some h)
    ∧ CloneRegistry.getHandler createDefaultRegistry fakeDateStore (.ref 0)
        = some HandlerTag.date
    ∧ clone 5 fakeDateStore (.ref 0) = none := by
  refine ⟨?_, rfl, rfl⟩
  intro r c h st a o hget hctor
  simp [CloneRegistry.getHandler, CloneRegistry.setHandler, hget, hctor, List.find?]

/-- Witness for C3's amended theorem: registering the Identity handler for
`Date` on the empty registry dispatches the invalid Date-shaped value to
it. -/
theorem c3_registration_has_no_validator_witness :
    fakeDateStore.getObj 0
        = some { ctor := some .date, proto := .protoOf .date, internal := .plain, props := [] }
    ∧ (CloneRegistry.setHandler { handlers := [] } .date .identity).getHandler
        fakeDateStore (.ref 0) = some HandlerTag.identity :=
  ⟨rfl,
    c3_registration_has_no_validator.1 { handlers := [] } .date .identity fakeDateStore 0
      { ctor := some .date, proto := .protoOf .date, internal := .plain, props := [] } rfl rfl⟩

/-- Claim C9: strategy dispatch keys on the value's `constructor` property
alone — two values with the same `constructor` get the same handler from
any registry, whatever else differs about them. An object with no
reachable `constructor` (`Object.create(null)`) gets no registry handler
and falls to the generic object handler (the full run duplicates it to a
fresh plain object preserving the null prototype and the data field), and
an object whose `constructor` property evaluates to `Date` is dispatched
to the Date strategy even though it is not a `Date` instance. -/
theorem c9_dispatch_keys_on_constructor_property :
    (∀ (reg : CloneRegistry) (stA stB : Store) (aA aB : Nat) (oA oB : ObjData),
      stA.getObj aA = some oA → stB.getObj aB = some oB → oA.ctor = oB.ctor →
      reg.getHandler stA (.ref aA) = reg.getHandler stB (.ref aB))
    ∧ CloneRegistry.getHandler createDefaultRegistry nullProtoStore (.ref 0) = none
    ∧ cloneAddr 5 nullProtoStore (.ref 0) = some 1
    ∧ cloneProto 5 nullProtoStore (.ref 0) = some Proto.nullProto
    ∧ cloneInternal 5 nullProtoStore (.ref 0) = some Internal.plain
    ∧ cloneOwn 5 nullProtoStore (.ref 0) (.str "a") = some (.prim (.num 1))
    ∧ CloneRegistry.getHandler createDefaultRegistry constructorDateStore (.ref 0)
        = some HandlerTag.date := by
  refine ⟨?_, rfl, rfl, rfl, rfl, rfl, rfl⟩
  intro reg stA stB aA aB oA oB hA hB hc
  simp [CloneRegistry.getHandler, hA, hB, hc]

/-- Witness for C9: the container of `pairStore` and the cyclic object of
`cycleStore` both have constructor `Object`, so any registry gives them the
same handler. -/
theorem c9_dispatch_keys_on_constructor_property_witness :
    pairStore.getObj 0
        = some { ctor := some .object, proto := .protoOf .object, internal := .plain,
                 props := [(.str "a", .data (.prim (.num 1)) true true true),
                           (.str "b", .data (.ref 1) true true true)] }
    ∧ CloneRegistry.getHandler createDefaultRegistry pairStore (.ref 0)
        = CloneRegistry.getHandler createDefaultRegistry cycleStore (.ref 0) :=
  ⟨rfl,
    c9_dispatch_keys_on_constructor_property.1 createDefaultRegistry pairStore cycleStore 0 0
      { ctor := some .object, proto := .protoOf .object, internal := .plain,
        props := [(.str "a", .data (.prim (.num 1)) true true true),
                  (.str "b", .data (.ref 1) true true true)] }
      { ctor := some .object, proto := .protoOf .object, internal := .plain,
        props := [(.str "self", .data (.ref 0) true true true)] }
      rfl rfl rfl⟩

/-- Counterexample to claim C6: the source's `isPropertyAccessor` has an
extra `key === "__proto__"` disjunct the claim does not mention. An own
ENUMERABLE, CONFIGURABLE and WRITABLE data property literally named
`__proto__` is therefore in the claim's "otherwise" class (its descriptor
is a data descriptor with no restrictive flag), yet the code re-defines the
identical descriptor on the duplicate — sharing the value reference
verbatim — instead of recursively duplicating it: after duplicating
`protoKeyStore`'s container, the duplicate's `__proto__` field still holds
the source's nested object (address 1), and the heap holds only the one
freshly allocated container shell (length 3), so no duplicate of the
nested object was ever created. -/
theorem c6_proto_key_shared_not_duplicated :
    isPropertyAccessor (.data (.ref 1) true true true) (.str "__proto__") = true
    ∧ cloneAddr 6 protoKeyStore (.ref 0) = some 2
    ∧ cloneOwn 6 protoKeyStore (.ref 0) (.str "__proto__") = some (.ref 1)
    ∧ (cloneStore 6 protoKeyStore (.ref 0)).map (fun st => st.heap.length) = some 3 :=
  ⟨rfl, rfl, rfl, rfl⟩

/-- Claim C6 as amended: for an own property processed by the
property-transfer loop (any key other than the skipped `"prototype"`):
when its descriptor is an accessor, or is non-enumerable, non-configurable
or non-writable, OR its key is literally `__proto__`
(`isPropertyAccessor`'s extra disjunct), the loop re-defines the identical
descriptor on the duplicate — accessor function identities and the
`__proto__`-keyed value are shared verbatim
(`lookupDesc (defineProp ro k d) k = some d`); otherwise the data value is
recursively duplicated and assigned, creating a fresh enumerable,
configurable and writable data property holding the duplicated value. The
fifth conjunct records that a `__proto__`-keyed data property is in the
re-define class whatever its flags, and the concrete conjuncts show the
sharing on a full run. -/
theorem c6_property_transfer_descriptor_policy :
    (∀ (cb : CloneCb) (result value : Nat) (st : Store) (k : PKey) (ks : List PKey)
        (o ro : ObjData) (d : Descriptor),
      k ≠ PKey.str "prototype" →
      st.getObj value = some o →
      lookupDesc o k = some d →
      isPropertyAccessor d k = true →
      st.getObj result = some ro →
      enumerateKeys cb result value st (k :: ks)
        = enumerateKeys cb result value (st.setObj result (defineProp ro k d)) ks)
    ∧ (∀ (cb : CloneCb) (result value : Nat) (st st1 : Store) (k : PKey) (ks : List PKey)
        (o ro : ObjData) (v cv : Value) (e c w : Bool),
      k ≠ PKey.str "prototype" →
      st.getObj value = some o →
      lookupDesc o k = some (.data v e c w) →
      isPropertyAccessor (.data v e c w) k = false →
      cb st v = some (st1, cv) →
      st1.getObj result = some ro →
      enumerateKeys cb result value st (k :: ks)
        = enumerateKeys cb result value (st1.setObj result (setProp ro k cv)) ks)
    ∧ (∀ (ro : ObjData) (k : PKey) (d : Descriptor),
      lookupDesc (defineProp ro k d) k = some d)
    ∧ (∀ (ro : ObjData) (k : PKey) (cv : Value),
      lookupDesc ro k = none →
      lookupDesc (setProp ro k cv) k = some (.data cv true true true))
    ∧ (∀ (v : Value) (e c w : Bool),
      isPropertyAccessor (.data v e c w) (.str "__proto__") = true)
    ∧ cloneOwn 6 protoKeyStore (.ref 0) (.str "__proto__") = some (.ref 1)
    ∧ (cloneStore 6 protoKeyStore (.ref 0)).map (fun st => st.heap.length) = some 3 := by
  refine ⟨?_, ?_, ?_, ?_, ?_, rfl, rfl⟩
  · intro cb result value st k ks o ro d hk hval hdesc hacc hres
    simp only [enumerateKeys, if_neg hk, hval, hdesc, hacc, if_true, hres]
  · intro cb result value st st1 k ks o ro v cv e c w hk hval hdesc hacc hcb hres
    simp only [enumerateKeys, if_neg hk, hval, hdesc, hacc, Bool.false_eq_true, if_false, hcb, hres]
  · intro ro k d
    exact findProp_definePropList ro.props k d
  · intro ro k cv hnone
    exact findProp_setPropList_fresh ro.props k cv hnone
  · intro v e c w
    simp [isPropertyAccessor]

/-- Witness for C6's amended theorem: in `accessorStore`, processing the
accessor property `val` re-defines its exact descriptor on the shell at
address 1, and processing `pairStore`'s data field `a` (with the identity
callback) assigns the cloned value; the descriptor lemmas are instantiated
on the empty shell. -/
theorem c6_property_transfer_descriptor_policy_witness :
    (PKey.str "val" ≠ PKey.str "prototype"
      ∧ accessorStore.getObj 0
          = some { ctor := some .object, proto := .protoOf .object, internal := .plain,
                   props := [(.str "val", .accessor (some 5) (some 6) true true)] }
      ∧ enumerateKeys (fun st v => some (st, v)) 1 0 accessorStore [.str "val"]
          = enumerateKeys (fun st v => some (st, v)) 1 0
              (accessorStore.setObj 1
                (defineProp (mkPlain (some .object) (.protoOf .object)) (.str "val")
                  (.accessor (some 5) (some 6) true true))) [])
    ∧ (enumerateKeys (fun st v => some (st, v)) 1 0 pairStore [.str "a"]
        = enumerateKeys (fun st v => some (st, v)) 1 0
            (pairStore.setObj 1
              (setProp { ctor := some .object, proto := .protoOf .object, internal := .plain,
                         props := [(.str "c", .data (.prim (.num 2)) true true true)] }
                (.str "a") (.prim (.num 1)))) [])
    ∧ lookupDesc (defineProp (mkPlain (some .object) (.protoOf .object)) (.str "val")
          (.accessor (some 5) (some 6) true true)) (.str "val")
        = some (.accessor (some 5) (some 6) true true)
    ∧ lookupDesc (setProp (mkPlain (some .object) (.protoOf .object)) (.str "q")
          (.prim (.num 3))) (.str "q")
        = some (.data (.prim (.num 3)) true true true) := by
  refine ⟨⟨by decide, rfl, ?_⟩, ?_, ?_, ?_⟩
  · exact c6_property_transfer_descriptor_policy.1 (fun st v => some (st, v)) 1 0 accessorStore
      (.str "val") []
      { ctor := some .object, proto := .protoOf .object, internal := .plain,
        props := [(.str "val", .accessor (some 5) (some 6) true true)] }
      (mkPlain (some .object) (.protoOf .object))
      (.accessor (some 5) (some 6) true true)
      (by decide) rfl rfl rfl rfl
  · exact c6_property_transfer_descriptor_policy.2.1 (fun st v => some (st, v)) 1 0 pairStore
      pairStore (.str "a") []
      { ctor := some .object, proto := .protoOf .object, internal := .plain,
        props := [(.str "a", .data (.prim (.num 1)) true true true),
                  (.str "b", .data (.ref 1) true true true)] }
      { ctor := some .object, proto := .protoOf .object, internal := .plain,
        props := [(.str "c", .data (.prim (.num 2)) true true true)] }
      (.prim (.num 1)) (.prim (.num 1)) true true true
      (by decide) rfl rfl rfl rfl rfl
  · exact c6_property_transfer_descriptor_policy.2.2.1
      (mkPlain (some .object) (.protoOf .object)) (.str "val")
      (.accessor (some 5) (some 6) true true)
  · exact c6_property_transfer_descriptor_policy.2.2.2.1
      (mkPlain (some .object) (.protoOf .object)) (.str "q") (.prim (.num 3)) rfl

/-- `cloneFunctionProperties` always returns the wrapper it was given: the
duplicate of a function is the freshly created wrapper. -/
theorem cloneFunctionProperties_ref (cb : CloneCb) (st : Store) (value result : Nat)
    (rp vp : Option Nat) (st2 : Store) (v : Value)
    (h : Handlers.cloneFunctionProperties cb st value result rp vp = some (st2, v)) :
    v = .ref result := by
  unfold Handlers.cloneFunctionProperties at h
  repeat' split at h
  all_goals cases h <;> rfl

/-- Every non-identity handler that succeeds returns a reference to an
object it freshly allocated: the returned address is at least the prior
heap length. -/
theorem applyHandler_fresh (h : HandlerTag) (cb : CloneCb) (st : Store) (a : Nat)
    (st2 : Store) (v : Value) (hne : h ≠ HandlerTag.identity)
    (hrun : applyHandler h cb st a = some (st2, v)) :
    ∃ r, v = .ref r ∧ st.heap.length ≤ r := by
  cases h
  case identity => exact absurd rfl hne
  all_goals
    unfold applyHandler Handlers.Array Handlers.ArrayBuffer Handlers.AsyncFunction
      Handlers.AsyncGeneratorFunction Handlers.Blob Handlers.DataView Handlers.Date
      Handlers.Error Handlers.File Handlers.FormData Handlers.Function
      Handlers.GeneratorFunction Handlers.Map Handlers.Object Handlers.RegExp
      Handlers.Set Handlers.TypedArray Handlers.URL Handlers.URLSearchParams at hrun
  all_goals simp only [Store.alloc] at hrun
  all_goals repeat' split at hrun
  all_goals first
    | (cases hrun <;> exact ⟨_, rfl, by simp⟩)
    | (obtain rfl := cloneFunctionProperties_ref _ _ _ _ _ _ _ _ hrun
       exact ⟨_, rfl, by simp⟩)

/-- The generic object fallback also always allocates a fresh object. -/
theorem object_handler_fresh (cb : CloneCb) (st : Store) (a : Nat) (st2 : Store) (v : Value)
    (hrun : Handlers.Object cb st a = some (st2, v)) :
    ∃ r, v = .ref r ∧ st.heap.length ≤ r := by
  unfold Handlers.Object at hrun
  simp only [Store.alloc] at hrun
  repeat' split at hrun
  all_goals cases hrun <;> exact ⟨_, rfl, by simp⟩

/-- Claim C8 as amended: for every reference-typed value whose selected
strategy is not the identity strategy (the weak collections WeakMap,
WeakSet and WeakRef are returned unchanged by design — see the
counterexample), a successful duplication returns a freshly allocated
reference, so `duplicate(v) !== v`; and the duplicate is structurally
equivalent — concretely, `{a: 1, b: {c: 2}}` duplicates to a new container
(address 2) with the same primitive field, a distinct nested reference
(address 3 instead of 1), and the nested field value preserved. -/
theorem c8_nonidentity_duplicates_are_fresh :
    (∀ (reg : CloneRegistry) (n : Nat) (st : Store) (a : Nat) (st2 : Store) (v : Value),
      st.lookupVisited a = none →
      reg.getHandler st (.ref a) ≠ some HandlerTag.identity →
      cloneRun reg (n + 1) st (.ref a) = some (st2, v) →
      ∃ r, v = .ref r ∧ st.heap.length ≤ r ∧ (a < st.heap.length → v ≠ .ref a))
    ∧ cloneAddr 6 pairStore (.ref 0) = some 2
    ∧ cloneOwn 6 pairStore (.ref 0) (.str "a") = some (.prim (.num 1))
    ∧ cloneOwn 6 pairStore (.ref 0) (.str "b") = some (.ref 3)
    ∧ (cloneStore 6 pairStore (.ref 0)).bind
        (fun st => (st.getObj 3).bind (fun o => getOwnValue o (.str "c")))
        = some (.prim (.num 2)) := by
  refine ⟨?_, rfl, rfl, rfl, rfl⟩
  intro reg n st a st2 v hvis hne hrun
  rw [cloneRun, isPrimitive_ref] at hrun
  simp only [Bool.false_eq_true, if_false, hvis] at hrun
  cases hh : reg.getHandler st (.ref a) with
  | some h =>
    rw [hh] at hrun
    have hni : h ≠ HandlerTag.identity := by
      intro he; exact hne (by rw [hh, he])
    obtain ⟨r, rfl, hr⟩ := applyHandler_fresh h _ st a st2 v hni hrun
    refine ⟨r, rfl, hr, fun ha hc => ?_⟩
    have hra : r = a := by injection hc
    omega
  | none =>
    rw [hh] at hrun
    obtain ⟨r, rfl, hr⟩ := object_handler_fresh _ st a st2 v hrun
    refine ⟨r, rfl, hr, fun ha hc => ?_⟩
    have hra : r = a := by injection hc
    omega

/-- Witness for C8's amended theorem: duplicating the single empty plain
object allocates the fresh address 1, distinct from the source address 0. -/
theorem c8_nonidentity_duplicates_are_fresh_witness :
    emptyStore.lookupVisited 0 = none
    ∧ CloneRegistry.getHandler createDefaultRegistry emptyStore (.ref 0) ≠ some HandlerTag.identity
    ∧ cloneRun createDefaultRegistry (1 + 1) emptyStore (.ref 0) = some (clonedEmptyStore, .ref 1)
    ∧ (∃ r, Value.ref 1 = Value.ref r ∧ emptyStore.heap.length ≤ r
        ∧ (0 < emptyStore.heap.length → Value.ref 1 ≠ Value.ref 0)) :=
  ⟨rfl, by decide, rfl,
    c8_nonidentity_duplicates_are_fresh.1 createDefaultRegistry 1 emptyStore 0
      clonedEmptyStore (.ref 1) rfl (by decide) rfl⟩
